import Mathlib

/-!
Shallow embedding of the probe-rs Zed debug-adapter extension
(`src/lib.rs`) and proofs about its specification.

The embedded code consists of:
  - `verify_adapter_name` (the adapter-name guard),
  - `parse_server_string` (the endpoint parser),
  - `get_dap_binary` (connection resolver + binary assembler),
  - `dap_request_kind` (request-kind resolver),
  - `dap_config_to_scenario` (scenario synthesizer).

External collaborators (the `zed_extension_api` host types, `serde_json`
parsing/serialization, and the Rust standard library's `Ipv4Addr` /
`u16::from_str` parsers and `str::split`) are modelled at their interface
boundary, faithful to their documented behavior:
  - JSON documents are modelled by the inductive `Json`; the result of
    `serde_json::from_str` on the raw configuration string is supplied to
    `get_dap_binary` as an `Option Json` argument (`none` = parse error),
    since the JSON text parser itself is outside this repository.
  - Rust strings are Lean `String`s; `str::split(':')` is modelled by the
    structurally recursive `splitCh`, which has Rust's semantics
    (splitting on every occurrence of the separator, keeping empty parts,
    and yielding one part for an input without separators).
  - `Ipv4Addr::from_str` is `parseIpv4` (four dot-separated decimal octets,
    each 0..=255, digits only, no leading zeros), fused with
    `Ipv4Addr::to_bits` (big-endian 32-bit value).
  - `u16::from_str` is `parseU16` (optional leading plus sign, then one or
    more decimal digits, value at most 65535).
  - Rust's `Result<T, String>` with its distinct error messages is modelled
    by `Except Error T` where each `Error` constructor stands for one
    distinct message produced by the source, carrying the offending value
    interpolated into that message.
-/

namespace ProbeRs

/-- Error values of the translator. Each constructor corresponds to one
distinct error message format in `src/lib.rs`:
  - `unsupportedAdapter n`: "Unsupported debug adapter name ..." (line 13)
  - `malformedConfig raw`: "Failed to parse JSON config: ..." (line 52)
  - `malformedEndpoint s`: "Invalid server string format ..." (line 202)
  - `invalidAddress h`: "Invalid IP address ..." (line 213)
  - `invalidPort p`: "Invalid port number ..." (line 221)
  - `missingField`: "Missing 'request' field in configuration" (line 125)
  - `invalidFieldValue v`: "Invalid value for the 'request' field ..." (line 131)
  - `unsupportedFeatureArguments`: "Passing arguments is not supported ..." (line 148)
  - `unsupportedFeatureEnvironment`: "Setting environment variables is not supported ..." (line 154)
  - `unsupportedRequestKind`: "Attaching to a process is not supported ..." (line 192) -/
inductive Error where
  | unsupportedAdapter (name : String)
  | malformedConfig (raw : String)
  | malformedEndpoint (s : String)
  | invalidAddress (host : String)
  | invalidPort (port : String)
  | missingField
  | invalidFieldValue (value : String)
  | unsupportedFeatureArguments
  | unsupportedFeatureEnvironment
  | unsupportedRequestKind
deriving DecidableEq

/-- JSON values, modelling `serde_json::Value`. Numbers are irrelevant to
the embedded code (it never reads one), so they are collapsed to `Int`. -/
inductive Json where
  | null
  | bool (b : Bool)
  | num (n : Int)
  | str (s : String)
  | arr (xs : List Json)
  | obj (fields : List (String × Json))

/-- Models `serde_json::Value::get(key)` for a string key: field lookup on
an object, `None` on every other variant. -/
def Json.get : Json → String → Option Json
  | .obj fields, key => fields.lookup key
  | _, _ => none

/-- Models `serde_json::Value::as_str`. -/
def Json.as_str : Json → Option String
  | .str s => some s
  | _ => none

/-- Models serialization of a Rust `Option<String>` by `serde_json::json!`:
`None` becomes JSON null, `Some s` becomes a JSON string. -/
def Json.ofOptStr : Option String → Json
  | none => .null
  | some s => .str s

/-- Models `zed_extension_api::TcpArguments` (spec section 6: `port : u16`,
`host : u32` holding an IPv4 address as a 32-bit big-endian integer,
`timeout` in milliseconds). Machine integers are represented as `Nat`;
every value the code constructs is in range. -/
structure TcpArguments where
  port : Nat
  host : Nat
  timeout : Option Nat
deriving DecidableEq

/-- Models `StartDebuggingRequestArgumentsRequest`. -/
inductive StartDebuggingRequestArgumentsRequest where
  | launch
  | attach
deriving DecidableEq

/-- Models `zed_extension_api::StartDebuggingRequestArguments`. -/
structure StartDebuggingRequestArguments where
  configuration : String
  request : StartDebuggingRequestArgumentsRequest
deriving DecidableEq

/-- Models `zed_extension_api::DebugAdapterBinary` (spec section 6). -/
structure DebugAdapterBinary where
  command : Option String
  arguments : List String
  envs : List (String × String)
  cwd : Option String
  connection : Option TcpArguments
  request_args : StartDebuggingRequestArguments
deriving DecidableEq

/-- Models `zed_extension_api::DebugTaskDefinition`. The embedded code only
reads its `config` field (the raw JSON configuration string), so only that
field is carried. -/
structure DebugTaskDefinition where
  config : String

/-- Models `zed_extension_api::DebugScenario`. The source stores `config`
as a string produced by serde's `to_string`; since that serialization is
external to this repository, the structured JSON value is carried instead.
The `build` field's payload type (`BuildTaskTemplate`) lives in the host
API and is always absent here, so it is modelled opaquely. -/
structure DebugScenario where
  label : String
  adapter : String
  build : Option Unit
  config : Json
  tcp_connection : Option TcpArguments

/-- Models `zed_extension_api::LaunchRequest` (spec section 6: `program`,
optional `cwd`, `args`, `envs`). -/
structure LaunchRequest where
  program : String
  cwd : Option String
  args : List String
  envs : List (String × String)

/-- Models `zed_extension_api::AttachRequest`; its contents are never
inspected by the embedded code. -/
structure AttachRequest where
  process_id : Option Nat

/-- Models `zed_extension_api::DebugRequest`. -/
inductive DebugRequest where
  | launch (r : LaunchRequest)
  | attach (r : AttachRequest)

/-- Models `zed_extension_api::DebugConfig` (spec section 6: label, adapter
name, the request, and the stop-on-entry boolean). -/
structure DebugConfig where
  label : String
  adapter : String
  request : DebugRequest
  stop_on_entry : Bool

/-- `const ADAPTER_NAME: &str = "probe-rs";` (line 9). -/
def ADAPTER_NAME : String := "probe-rs"

/-- `const DEFAULT_TIMEOUT: Duration = Duration::from_secs(5);` (line 21),
observed by the code only through `.as_millis()`, i.e. as 5000. -/
def DEFAULT_TIMEOUT : Nat := 5000

/-- `Ipv4Addr::LOCALHOST.to_bits()`: 127.0.0.1 as a big-endian 32-bit
value. -/
def LOCALHOST_BITS : Nat := ((127 * 256 + 0) * 256 + 0) * 256 + 1

/-- Embeds `verify_adapter_name` (lines 11-19). -/
def verify_adapter_name (adapter_name : String) : Except Error Unit :=
  if adapter_name ≠ ADAPTER_NAME then
    .error (.unsupportedAdapter adapter_name)
  else
    .ok ()

/-- Models Rust's `str::split(sep)` on a character: splits at every
occurrence of `sep`, keeping empty segments; an input with no separator
yields a single segment. -/
def splitCh (sep : Char) : List Char → List (List Char)
  | [] => [[]]
  | c :: cs =>
    if c = sep then
      [] :: splitCh sep cs
    else
      match splitCh sep cs with
      | [] => [[c]]
      | r :: rs => (c :: r) :: rs

/-- The numeric value of a list of decimal digit characters. -/
def digitsToNat (l : List Char) : Nat :=
  l.foldl (fun n c => n * 10 + (c.toNat - 48)) 0

/-- Models the Rust standard library's parsing of one IPv4 octet inside
`Ipv4Addr::from_str`: a non-empty, all-digit segment with no leading zero
(except the single digit "0" itself), valued at most 255. -/
def parseOctet (s : String) : Option Nat :=
  if s.toList ≠ [] ∧ s.toList.all Char.isDigit ∧
      (s.toList.length = 1 ∨ s.toList.head? ≠ some '0') then
    if digitsToNat s.toList ≤ 255 then some (digitsToNat s.toList) else none
  else
    none

/-- Models `Ipv4Addr::from_str` fused with `Ipv4Addr::to_bits`: four
dot-separated octets, combined big-endian into a 32-bit value. -/
def parseIpv4 (s : String) : Option Nat :=
  match (splitCh '.' s.toList).map String.mk with
  | [a, b, c, d] =>
    match parseOctet a, parseOctet b, parseOctet c, parseOctet d with
    | some a', some b', some c', some d' =>
      some (((a' * 256 + b') * 256 + c') * 256 + d')
    | _, _, _, _ => none
  | _ => none

/-- Digit-run part of `u16::from_str`: a non-empty run of decimal digits
whose value is at most 65535 (larger values are an overflow error; any
non-digit character is an invalid-digit error). -/
def parseU16digits (l : List Char) : Option Nat :=
  if l ≠ [] ∧ l.all Char.isDigit then
    if digitsToNat l ≤ 65535 then some (digitsToNat l) else none
  else
    none

/-- Models `u16::from_str`: an optional leading plus sign, then a
non-empty run of decimal digits whose value is at most 65535 (a minus
sign is rejected for an unsigned integer type). -/
def parseU16 (s : String) : Option Nat :=
  match s.toList with
  | '+' :: rest => parseU16digits rest
  | l => parseU16digits l

/-- Embeds `parse_server_string` (lines 198-232): split on the colon,
require exactly two parts, parse the first as an IPv4 address (stored as
its 32-bit value) and the second as a 16-bit port, with no timeout. -/
def parse_server_string (server_string : String) : Except Error TcpArguments :=
  let parts : List String := (splitCh ':' server_string.toList).map String.mk
  match parts with
  | [host_str, port_str] =>
    match parseIpv4 host_str with
    | none => .error (.invalidAddress host_str)
    | some host_bits =>
      match parseU16 port_str with
      | none => .error (.invalidPort port_str)
      | some port => .ok { port := port, host := host_bits, timeout := none }
  | _ => .error (.malformedEndpoint server_string)

/-- Embeds `get_dap_binary` (lines 36-114). The result of
`serde_json::from_str(&config.config)` is supplied as `jsonConfig`
(`none` represents a serde parse error, which the source maps to the
"Failed to parse JSON config" message). -/
def get_dap_binary (adapter_name : String) (config : DebugTaskDefinition)
    (jsonConfig : Option Json)
    (user_provided_debug_adapter_path : Option String) :
    Except Error DebugAdapterBinary :=
  match verify_adapter_name adapter_name with
  | .error e => .error e
  | .ok _ =>
    match jsonConfig with
    | none => .error (.malformedConfig config.config)
    | some json_config =>
      match (json_config.get "server").bind Json.as_str with
      | some server_string =>
        match parse_server_string server_string with
        | .error e => .error e
        | .ok parsed =>
          .ok { command := none
                arguments := []
                envs := []
                cwd := none
                connection := some { parsed with timeout := some DEFAULT_TIMEOUT }
                request_args := { configuration := config.config
                                  request := .launch } }
      | none =>
        let port : Nat := 50000
        .ok { command := some (user_provided_debug_adapter_path.getD "probe-rs")
              arguments := ["dap-server", "--port", toString port]
              envs := []
              cwd := none
              connection := some { port := port
                                   host := LOCALHOST_BITS
                                   timeout := some DEFAULT_TIMEOUT }
              request_args := { configuration := config.config
                                request := .launch } }

/-- Embeds `dap_request_kind` (lines 116-136). -/
def dap_request_kind (adapter_name : String) (config : Json) :
    Except Error StartDebuggingRequestArgumentsRequest :=
  match verify_adapter_name adapter_name with
  | .error e => .error e
  | .ok _ =>
    match (config.get "request").bind Json.as_str with
    | none => .error .missingField
    | some request_value =>
      if request_value = "launch" then .ok .launch
      else if request_value = "attach" then .ok .attach
      else .error (.invalidFieldValue request_value)

/-- Embeds `dap_config_to_scenario` (lines 138-195). The synthesized JSON
configuration is kept structured (the source serializes it with serde's
`to_string`, which is external to this repository). -/
def dap_config_to_scenario (debug_config : DebugConfig) :
    Except Error DebugScenario :=
  match verify_adapter_name debug_config.adapter with
  | .error e => .error e
  | .ok _ =>
    match debug_config.request with
    | .launch launch_request =>
      if launch_request.args ≠ [] then
        .error .unsupportedFeatureArguments
      else if launch_request.envs ≠ [] then
        .error .unsupportedFeatureEnvironment
      else
        .ok { label := debug_config.label
              adapter := debug_config.adapter
              build := none
              config := Json.obj
                [("cwd", Json.ofOptStr launch_request.cwd),
                 ("coreConfigs", Json.arr
                   [Json.obj [("programBinary", Json.str launch_request.program)]]),
                 ("flashingConfig", Json.obj
                   [("flashingEnabled", Json.bool true),
                    ("haltAfterReset", Json.bool debug_config.stop_on_entry)]),
                 ("request", Json.str "launch")]
              tcp_connection := none }
    | .attach _ => .error .unsupportedRequestKind

/-! Helper lemmas about the character splitter and the numeric parsers. -/

theorem splitCh_no_sep (sep : Char) :
    ∀ l : List Char, sep ∉ l → splitCh sep l = [l]
  | [], _ => rfl
  | c :: cs, h => by
    have hc : ¬ c = sep := fun hh => h (hh ▸ List.mem_cons_self c cs)
    have ih := splitCh_no_sep sep cs (fun hh => h (List.mem_cons_of_mem _ hh))
    conv_lhs => rw [splitCh]
    rw [if_neg hc, ih]

theorem splitCh_append (sep : Char) :
    ∀ (l₁ l₂ : List Char), sep ∉ l₁ →
      splitCh sep (l₁ ++ sep :: l₂) = l₁ :: splitCh sep l₂
  | [], l₂, _ => by
    rw [List.nil_append]
    conv_lhs => rw [splitCh]
    rw [if_pos rfl]
  | c :: cs, l₂, h => by
    have hc : ¬ c = sep := fun hh => h (hh ▸ List.mem_cons_self c cs)
    have ih := splitCh_append sep cs l₂ (fun hh => h (List.mem_cons_of_mem _ hh))
    show splitCh sep (c :: (cs ++ sep :: l₂)) = (c :: cs) :: splitCh sep l₂
    conv_lhs => rw [splitCh]
    rw [if_neg hc, ih]

theorem parseOctet_digits {s : String} {a : Nat} (h : parseOctet s = some a) :
    ∀ c ∈ s.toList, c.isDigit = true := by
  unfold parseOctet at h
  split at h
  · next hcond => exact fun c hc => List.all_eq_true.mp hcond.2.1 c hc
  · exact absurd h (by simp)

theorem parseU16digits_digits {l : List Char} {p : Nat}
    (h : parseU16digits l = some p) : ∀ c ∈ l, c.isDigit = true := by
  unfold parseU16digits at h
  split at h
  · next hcond => exact fun c hc => List.all_eq_true.mp hcond.2 c hc
  · exact absurd h (by simp)

theorem parseU16_chars {s : String} {p : Nat} (h : parseU16 s = some p) :
    ∀ c ∈ s.toList, c.isDigit = true ∨ c = '+' := by
  unfold parseU16 at h
  split at h
  · next rest heq =>
    intro c hc
    rw [heq] at hc
    rcases List.mem_cons.mp hc with h1 | h1
    · exact Or.inr h1
    · exact Or.inl (parseU16digits_digits h c h1)
  · exact fun c hc => Or.inl (parseU16digits_digits h c hc)

theorem stringMk_toList (s : String) : String.mk s.toList = s := rfl

theorem digitList_not_mem_colon {l : List Char}
    (h : ∀ c ∈ l, c.isDigit = true) : ':' ∉ l :=
  fun hmem => absurd (h ':' hmem) (by decide)

theorem digitList_not_mem_dot {l : List Char}
    (h : ∀ c ∈ l, c.isDigit = true) : '.' ∉ l :=
  fun hmem => absurd (h '.' hmem) (by decide)

/-! Claim theorems. -/

/-- C4: for every launch request with empty args and empty envs and the
recognized adapter name, `dap_config_to_scenario` succeeds; the
synthesized JSON configuration has exactly the shape
`(cwd, coreConfigs: [(programBinary)], flashingConfig: (flashingEnabled:
true, haltAfterReset: stop-on-entry), request: "launch")`, and the
returned scenario carries the original label and adapter, no build step
and no TCP connection. -/
theorem c4_launch_scenario_shape (label program : String)
    (cwd : Option String) (stop : Bool) :
    dap_config_to_scenario
        { label := label, adapter := ADAPTER_NAME,
          request := .launch
            { program := program, cwd := cwd, args := [], envs := [] },
          stop_on_entry := stop } =
      Except.ok
        { label := label, adapter := ADAPTER_NAME, build := none,
          config := Json.obj
            [("cwd", Json.ofOptStr cwd),
             ("coreConfigs", Json.arr
               [Json.obj [("programBinary", Json.str program)]]),
             ("flashingConfig", Json.obj
               [("flashingEnabled", Json.bool true),
                ("haltAfterReset", Json.bool stop)]),
             ("request", Json.str "launch")],
          tcp_connection := none } := rfl

/-- C6: for every attach request with the recognized adapter name,
`dap_config_to_scenario` fails with the unsupported-request-kind error,
whatever the attach request contains. -/
theorem c6_attach_always_fails (label : String) (ar : AttachRequest)
    (stop : Bool) :
    dap_config_to_scenario
        { label := label, adapter := ADAPTER_NAME,
          request := .attach ar, stop_on_entry := stop } =
      Except.error Error.unsupportedRequestKind := rfl

/-- C5: for every launch request with a non-empty argument list,
`dap_config_to_scenario` fails with the unsupported-feature error for
arguments; with an empty argument list but non-empty environment mapping
it fails with the unsupported-feature error for environment variables —
regardless of the other fields of the request. -/
theorem c5_args_envs_rejected (label program : String) (cwd : Option String)
    (args : List String) (envs : List (String × String)) (stop : Bool) :
    (args ≠ [] →
      dap_config_to_scenario
          { label := label, adapter := ADAPTER_NAME,
            request := .launch
              { program := program, cwd := cwd, args := args, envs := envs },
            stop_on_entry := stop } =
        Except.error Error.unsupportedFeatureArguments)
    ∧ (args = [] → envs ≠ [] →
      dap_config_to_scenario
          { label := label, adapter := ADAPTER_NAME,
            request := .launch
              { program := program, cwd := cwd, args := args, envs := envs },
            stop_on_entry := stop } =
        Except.error Error.unsupportedFeatureEnvironment) := by
  constructor
  · intro h
    simp [dap_config_to_scenario, verify_adapter_name, h]
  · intro h1 h2
    simp [dap_config_to_scenario, verify_adapter_name, h1, h2]

/-- Witness for C5: a launch request with one argument is rejected for
arguments, and one with a single environment variable is rejected for
environment variables. -/
theorem c5_args_envs_rejected_witness :
    dap_config_to_scenario
        { label := "l", adapter := ADAPTER_NAME,
          request := .launch
            { program := "p", cwd := none, args := ["x"], envs := [] },
          stop_on_entry := false } =
      Except.error Error.unsupportedFeatureArguments
    ∧ dap_config_to_scenario
        { label := "l", adapter := ADAPTER_NAME,
          request := .launch
            { program := "p", cwd := none, args := [], envs := [("A", "B")] },
          stop_on_entry := false } =
      Except.error Error.unsupportedFeatureEnvironment :=
  ⟨(c5_args_envs_rejected "l" "p" none ["x"] [] false).1 (by simp),
   (c5_args_envs_rejected "l" "p" none [] [("A", "B")] false).2 rfl (by simp)⟩

/-- C7: for every configuration given to `dap_request_kind` with the
recognized adapter name: a missing or non-string request field fails with
the missing-field error; the string "launch" resolves to Launch; the
string "attach" resolves to Attach; any other string fails with the
invalid-field-value error naming that string. -/
theorem c7_request_kind_resolution (config : Json) :
    ((config.get "request").bind Json.as_str = none →
      dap_request_kind ADAPTER_NAME config = Except.error Error.missingField)
    ∧ ((config.get "request").bind Json.as_str = some "launch" →
      dap_request_kind ADAPTER_NAME config =
        Except.ok StartDebuggingRequestArgumentsRequest.launch)
    ∧ ((config.get "request").bind Json.as_str = some "attach" →
      dap_request_kind ADAPTER_NAME config =
        Except.ok StartDebuggingRequestArgumentsRequest.attach)
    ∧ (∀ v, (config.get "request").bind Json.as_str = some v →
      v ≠ "launch" → v ≠ "attach" →
      dap_request_kind ADAPTER_NAME config =
        Except.error (Error.invalidFieldValue v)) := by
  refine ⟨fun h => ?_, fun h => ?_, fun h => ?_, fun v h hv1 hv2 => ?_⟩
  · simp [dap_request_kind, verify_adapter_name, h]
  · simp [dap_request_kind, verify_adapter_name, h]
  · simp [dap_request_kind, verify_adapter_name, h]
  · simp [dap_request_kind, verify_adapter_name, h, hv1, hv2]

/-- Witness for C7: the four behaviors at concrete configurations. -/
theorem c7_request_kind_resolution_witness :
    dap_request_kind ADAPTER_NAME (Json.obj []) =
      Except.error Error.missingField
    ∧ dap_request_kind ADAPTER_NAME
        (Json.obj [("request", Json.str "launch")]) =
      Except.ok StartDebuggingRequestArgumentsRequest.launch
    ∧ dap_request_kind ADAPTER_NAME
        (Json.obj [("request", Json.str "attach")]) =
      Except.ok StartDebuggingRequestArgumentsRequest.attach
    ∧ dap_request_kind ADAPTER_NAME (Json.obj [("request", Json.str "foo")]) =
      Except.error (Error.invalidFieldValue "foo") :=
  ⟨(c7_request_kind_resolution (Json.obj [])).1 rfl,
   (c7_request_kind_resolution (Json.obj [("request", Json.str "launch")])).2.1 rfl,
   (c7_request_kind_resolution (Json.obj [("request", Json.str "attach")])).2.2.1 rfl,
   (c7_request_kind_resolution (Json.obj [("request", Json.str "foo")])).2.2.2 "foo"
     rfl (by decide) (by decide)⟩

/-- C3: with a valid JSON configuration, if the configuration has a string
field "server" that parses as a valid endpoint, `get_dap_binary` returns a
null command and the parsed connection with the 5000 ms default timeout;
if the configuration has no "server" field, it returns the user-supplied
adapter path (default "probe-rs") as command, the fixed dap-server
argument list, and the default loopback connection on port 50000 with the
5000 ms timeout. -/
theorem c3_connection_resolution (cfgRaw : String) (path : Option String)
    (j : Json) :
    (∀ ss tcp, j.get "server" = some (Json.str ss) →
      parse_server_string ss = Except.ok tcp →
      get_dap_binary ADAPTER_NAME { config := cfgRaw } (some j) path =
        Except.ok
          { command := none, arguments := [], envs := [], cwd := none,
            connection := some
              { port := tcp.port, host := tcp.host,
                timeout := some DEFAULT_TIMEOUT },
            request_args :=
              { configuration := cfgRaw, request := .launch } })
    ∧ (j.get "server" = none →
      get_dap_binary ADAPTER_NAME { config := cfgRaw } (some j) path =
        Except.ok
          { command := some (path.getD "probe-rs"),
            arguments := ["dap-server", "--port", "50000"], envs := [],
            cwd := none,
            connection := some
              { port := 50000, host := LOCALHOST_BITS,
                timeout := some DEFAULT_TIMEOUT },
            request_args :=
              { configuration := cfgRaw, request := .launch } }) := by
  constructor
  · intro ss tcp h1 h2
    simp [get_dap_binary, verify_adapter_name, h1, Json.as_str, h2]
  · intro h
    simp [get_dap_binary, verify_adapter_name, h]
    rfl

/-- Witness for C3: a configuration with server "10.0.0.1:1234" yields a
null command and a connection on port 1234; a configuration without a
server field and a user-supplied path yields that path as command, the
fixed argument list and the loopback connection on port 50000. -/
theorem c3_connection_resolution_witness :
    get_dap_binary ADAPTER_NAME { config := "x" }
        (some (Json.obj [("server", Json.str "10.0.0.1:1234")])) none =
      Except.ok
        { command := none, arguments := [], envs := [], cwd := none,
          connection := some
            { port := 1234, host := ((10 * 256 + 0) * 256 + 0) * 256 + 1,
              timeout := some DEFAULT_TIMEOUT },
          request_args := { configuration := "x", request := .launch } }
    ∧ get_dap_binary ADAPTER_NAME { config := "x" } (some (Json.obj []))
        (some "/opt/probe-rs") =
      Except.ok
        { command := some "/opt/probe-rs",
          arguments := ["dap-server", "--port", "50000"], envs := [],
          cwd := none,
          connection := some
            { port := 50000, host := LOCALHOST_BITS,
              timeout := some DEFAULT_TIMEOUT },
          request_args := { configuration := "x", request := .launch } } :=
  ⟨(c3_connection_resolution "x" none
      (Json.obj [("server", Json.str "10.0.0.1:1234")])).1 "10.0.0.1:1234"
      { port := 1234, host := ((10 * 256 + 0) * 256 + 0) * 256 + 1,
        timeout := none } rfl rfl,
   (c3_connection_resolution "x" (some "/opt/probe-rs") (Json.obj [])).2 rfl⟩

/-- C10: if the parsed configuration holds a "server" key whose value is
not a JSON string, `get_dap_binary` does not fail: it selects spawn mode
exactly as if the key were absent. -/
theorem c10_nonstring_server_ignored (v : Json) (cfgRaw : String)
    (path : Option String) (j : Json)
    (hget : j.get "server" = some v) (hstr : v.as_str = none) :
    get_dap_binary ADAPTER_NAME { config := cfgRaw } (some j) path =
      Except.ok
        { command := some (path.getD "probe-rs"),
          arguments := ["dap-server", "--port", "50000"], envs := [],
          cwd := none,
          connection := some
            { port := 50000, host := LOCALHOST_BITS,
              timeout := some DEFAULT_TIMEOUT },
          request_args := { configuration := cfgRaw, request := .launch } } := by
  simp [get_dap_binary, verify_adapter_name, hget, hstr]
  rfl

/-- Witness for C10: a configuration whose server field is the number 5
spawns the default binary on the default loopback connection. -/
theorem c10_nonstring_server_ignored_witness :
    get_dap_binary ADAPTER_NAME { config := "x" }
        (some (Json.obj [("server", Json.num 5)])) none =
      Except.ok
        { command := some "probe-rs",
          arguments := ["dap-server", "--port", "50000"], envs := [],
          cwd := none,
          connection := some
            { port := 50000, host := LOCALHOST_BITS,
              timeout := some DEFAULT_TIMEOUT },
          request_args := { configuration := "x", request := .launch } } :=
  c10_nonstring_server_ignored (Json.num 5) "x" none
    (Json.obj [("server", Json.num 5)]) rfl rfl

/-- Counterexample to C1 as stated: on a configuration without a "server"
field, `get_dap_binary` succeeds with the spawn fields populated AND the
TCP endpoint also populated (the default loopback connection) — the
endpoint is not absent in spawn mode. -/
theorem c1_counterexample :
    (get_dap_binary ADAPTER_NAME { config := "\x7b\x7d" }
        (some (Json.obj [])) none).toOption.map
      (fun b => (b.command, b.connection)) =
    some (some "probe-rs",
      some { port := 50000, host := LOCALHOST_BITS,
             timeout := some DEFAULT_TIMEOUT }) := rfl

/-- C1 amended: every successful `get_dap_binary` result has the TCP
connection populated, and exactly one of the two command modes holds:
either the spawn fields are set (command present, the fixed three-element
dap-server argument list) or the command is null with an empty argument
list. -/
theorem c1_mode_exclusivity (adapter_name cfgRaw : String)
    (jsonConfig : Option Json) (path : Option String)
    (b : DebugAdapterBinary)
    (h : get_dap_binary adapter_name { config := cfgRaw } jsonConfig path =
      Except.ok b) :
    b.connection.isSome = true ∧
      ((b.command.isSome = true ∧
          b.arguments = ["dap-server", "--port", "50000"]) ∨
        (b.command = none ∧ b.arguments = [])) := by
  unfold get_dap_binary at h
  repeat' split at h
  all_goals simp_all
  all_goals subst h
  · exact ⟨rfl, Or.inr ⟨rfl, rfl⟩⟩
  · exact ⟨rfl, Or.inl ⟨rfl, rfl⟩⟩

/-- The binary produced by the run of `get_dap_binary` used to witness the
amended C1. -/
def c1WitnessBinary : DebugAdapterBinary :=
  { command := some "probe-rs",
    arguments := ["dap-server", "--port", "50000"], envs := [], cwd := none,
    connection := some
      { port := 50000, host := LOCALHOST_BITS,
        timeout := some DEFAULT_TIMEOUT },
    request_args := { configuration := "\x7b\x7d", request := .launch } }

/-- Counterexample to C2 as stated: the input ":3000" splits into an
empty host part and "3000", so it does not yield two non-empty parts, yet
`parse_server_string` rejects it with the invalid-address error, not with
the malformed-endpoint ("Invalid server string format") error. -/
theorem c2_counterexample :
    parse_server_string ":3000" = Except.error (Error.invalidAddress "")
    ∧ parse_server_string ":3000" ≠
        Except.error (Error.malformedEndpoint ":3000") := by
  refine ⟨rfl, fun hcontra => ?_⟩
  rw [show parse_server_string ":3000" =
      Except.error (Error.invalidAddress "") from rfl] at hcontra
  simp at hcontra

/-- C2 amended: `parse_server_string` fails with the malformed-endpoint
error exactly when splitting the input on the colon yields a number of
parts different from two — the empty string, strings with no colon, and
strings with two or more colons. A string with exactly one colon passes
the structural check even when its host or port segment is empty (such
inputs fail later with the invalid-address or invalid-port error). -/
theorem c2_malformed_iff (s : String) :
    parse_server_string s = Except.error (Error.malformedEndpoint s) ↔
      (splitCh ':' s.toList).length ≠ 2 := by
  have hlen : (splitCh ':' s.toList).length =
      ((splitCh ':' s.toList).map String.mk).length :=
    (List.length_map _ _).symm
  rw [hlen]
  simp only [parse_server_string]
  rcases (splitCh ':' s.toList).map String.mk with _ | ⟨a, _ | ⟨b, _ | ⟨c, t⟩⟩⟩
  · simp
  · simp
  · rcases h2 : parseIpv4 a with _ | bits
    · simp [h2]
    · rcases h3 : parseU16 b with _ | port
      · simp [h2, h3]
      · simp [h2, h3]
  · simp

/-- C9: for a string with exactly one colon, an invalid IPv4 host segment
fails with the invalid-address error, and a valid host with a port
segment that does not parse as a 16-bit unsigned integer (non-numeric,
negative, empty, or above 65535) fails with the invalid-port error. -/
theorem c9_invalid_host_or_port (s host_str port_str : String)
    (hsplit : (splitCh ':' s.toList).map String.mk = [host_str, port_str]) :
    (parseIpv4 host_str = none →
      parse_server_string s = Except.error (Error.invalidAddress host_str))
    ∧ (∀ bits, parseIpv4 host_str = some bits → parseU16 port_str = none →
      parse_server_string s = Except.error (Error.invalidPort port_str)) := by
  constructor
  · intro h
    simp only [parse_server_string, hsplit, h]
  · intro bits h1 h2
    simp only [parse_server_string, hsplit, h1, h2]

/-- Witness for C9: "localhost:3000" fails with the invalid-address
error; "10.0.0.1:99999" fails with the invalid-port error. -/
theorem c9_invalid_host_or_port_witness :
    parse_server_string "localhost:3000" =
      Except.error (Error.invalidAddress "localhost")
    ∧ parse_server_string "10.0.0.1:99999" =
      Except.error (Error.invalidPort "99999") :=
  ⟨(c9_invalid_host_or_port "localhost:3000" "localhost" "3000" rfl).1 rfl,
   (c9_invalid_host_or_port "10.0.0.1:99999" "10.0.0.1" "99999" rfl).2
     (((10 * 256 + 0) * 256 + 0) * 256 + 1) rfl rfl⟩

/-- C8: every string "a.b.c.d:port" made of four valid octet segments and
a valid port segment parses successfully into an endpoint whose host is
the 32-bit big-endian encoding of (a, b, c, d), whose port is the given
port (at most 65535 by validity), and whose timeout is unset. -/
theorem c8_valid_endpoint (sa sb sc sd sp : String) (a b c d p : Nat)
    (ha : parseOctet sa = some a) (hb : parseOctet sb = some b)
    (hc : parseOctet sc = some c) (hd : parseOctet sd = some d)
    (hp : parseU16 sp = some p) :
    parse_server_string
        (sa ++ "." ++ sb ++ "." ++ sc ++ "." ++ sd ++ ":" ++ sp) =
      Except.ok
        { port := p, host := ((a * 256 + b) * 256 + c) * 256 + d,
          timeout := none } := by
  have hda := parseOctet_digits ha
  have hdb := parseOctet_digits hb
  have hdc := parseOctet_digits hc
  have hdd := parseOctet_digits hd
  have hpc := parseU16_chars hp
  have hspc : ':' ∉ sp.toList := by
    intro hmem
    rcases hpc ':' hmem with h1 | h1
    · exact absurd h1 (by decide)
    · exact absurd h1 (by decide)
  have hhostc : ':' ∉
      (sa.toList ++ '.' :: (sb.toList ++ '.' :: (sc.toList ++ '.' :: sd.toList))) := by
    intro hmem
    simp only [List.mem_append, List.mem_cons] at hmem
    rcases hmem with h1 | h1 | h1 | h1 | h1 | h1 | h1
    · exact digitList_not_mem_colon hda h1
    · exact absurd h1 (by decide)
    · exact digitList_not_mem_colon hdb h1
    · exact absurd h1 (by decide)
    · exact digitList_not_mem_colon hdc h1
    · exact absurd h1 (by decide)
    · exact digitList_not_mem_colon hdd h1
  have htl : (sa ++ "." ++ sb ++ "." ++ sc ++ "." ++ sd ++ ":" ++ sp).toList
      = (sa.toList ++ '.' :: (sb.toList ++ '.' :: (sc.toList ++ '.' :: sd.toList)))
        ++ ':' :: sp.toList := by
    simp [String.toList, String.data_append, List.append_assoc]
  have hsplit1 :
      splitCh ':' ((sa ++ "." ++ sb ++ "." ++ sc ++ "." ++ sd ++ ":" ++ sp).toList)
      = [sa.toList ++ '.' :: (sb.toList ++ '.' :: (sc.toList ++ '.' :: sd.toList)),
         sp.toList] := by
    rw [htl, splitCh_append _ _ _ hhostc, splitCh_no_sep _ _ hspc]
  have hipv4 : parseIpv4 (String.mk
      (sa.toList ++ '.' :: (sb.toList ++ '.' :: (sc.toList ++ '.' :: sd.toList))))
      = some (((a * 256 + b) * 256 + c) * 256 + d) := by
    unfold parseIpv4
    rw [show (String.mk (sa.toList ++ '.' ::
          (sb.toList ++ '.' :: (sc.toList ++ '.' :: sd.toList)))).toList
        = sa.toList ++ '.' :: (sb.toList ++ '.' :: (sc.toList ++ '.' :: sd.toList))
        from rfl,
      splitCh_append _ _ _ (digitList_not_mem_dot hda),
      splitCh_append _ _ _ (digitList_not_mem_dot hdb),
      splitCh_append _ _ _ (digitList_not_mem_dot hdc),
      splitCh_no_sep _ _ (digitList_not_mem_dot hdd)]
    simp only [List.map, stringMk_toList, ha, hb, hc, hd]
  simp only [parse_server_string, hsplit1, List.map, stringMk_toList, hipv4, hp]

/-- Witness for C8: the concrete endpoint "192.168.1.1:8080" parses to
port 8080, the 32-bit encoding of 192.168.1.1, and no timeout. -/
theorem c8_valid_endpoint_witness :
    parse_server_string "192.168.1.1:8080" =
      Except.ok
        { port := 8080, host := ((192 * 256 + 168) * 256 + 1) * 256 + 1,
          timeout := none } :=
  c8_valid_endpoint "192" "168" "1" "1" "8080" 192 168 1 1 8080
    rfl rfl rfl rfl rfl

/-- Witness for the amended C1 at a concrete successful call. -/
theorem c1_mode_exclusivity_witness :
    c1WitnessBinary.connection.isSome = true ∧
      ((c1WitnessBinary.command.isSome = true ∧
          c1WitnessBinary.arguments = ["dap-server", "--port", "50000"]) ∨
        (c1WitnessBinary.command = none ∧ c1WitnessBinary.arguments = [])) :=
  c1_mode_exclusivity ADAPTER_NAME "\x7b\x7d" (some (Json.obj [])) none
    c1WitnessBinary rfl

end ProbeRs
